import Mathlib

/-!
Shallow embedding of the document-template web service in `src/app.py`
(Flask + SQLite).  The four SQLite tables become lists of row structures
inside a `DBState`; the `AUTOINCREMENT` id counters are carried explicitly
(they are not reset by `DELETE`, matching SQLite's `AUTOINCREMENT`
sequence behaviour).  Each HTTP handler becomes a pure function from the
request data and a `DBState` to a response value, paired with the
successor state when the handler writes.

Timestamps (`CURRENT_TIMESTAMP`, `datetime.now()`) are modelled as a
`Nat` parameter `now` passed to the writing handlers.  JSON serialization
of a submitted mapping (`json.dumps(fields_data)`) is an opaque parameter
`dumps` of the document-generation handler, since no claim depends on the
concrete encoding.
-/

namespace DocGen

/-- Values a JSON request body can supply for a field, as Python sees
them; only their truthiness and their serialized form matter to the
handlers. -/
inductive PyVal where
  | str (s : String)
  | int (n : Int)
  | bool (b : Bool)
  | null
deriving DecidableEq, Repr

/-- Python truthiness for the submitted values: empty string, zero,
`False` and `None` are falsy. -/
def PyVal.truthy : PyVal → Bool
  | .str s => s ≠ ""
  | .int n => n ≠ 0
  | .bool b => b
  | .null => false

/-- A request body's `fields` mapping: Python dict with string keys. -/
abbrev Submission : Type := List (String × PyVal)

/-- Row of the `categories` table. -/
structure CategoryRow where
  id : Nat
  name : String
  description : Option String
deriving DecidableEq, Repr

/-- Row of the `templates` table.  `doc_type` is nullable in the schema
(the `CHECK` constraint passes on NULL); `popularity` defaults to 0. -/
structure TemplateRow where
  id : Nat
  category_id : Option Nat
  name : String
  description : Option String
  doc_type : Option String
  word_count : Option Int
  popularity : Int
  created_at : Nat
deriving DecidableEq, Repr

/-- Row of the `template_fields` table. -/
structure TemplateFieldRow where
  id : Nat
  template_id : Nat
  field_key : String
  field_label : String
  field_type : String
  is_required : Bool
  min_value : Option Int
  max_value : Option Int
  format : Option String
  placeholder : Option String
  options : Option String
  order_index : Int
deriving DecidableEq, Repr

/-- Row of the `filled_documents` table. -/
structure FilledDocumentRow where
  id : Nat
  template_id : Nat
  user_id : Option Nat
  document_data : String
  created_at : Nat
  status : String
deriving DecidableEq, Repr

/-- The SQLite database state: the four tables (in rowid order) plus the
`AUTOINCREMENT` sequence counters. -/
structure DBState where
  categories : List CategoryRow
  templates : List TemplateRow
  template_fields : List TemplateFieldRow
  filled_documents : List FilledDocumentRow
  nextCategoryId : Nat
  nextTemplateId : Nat
  nextFieldId : Nat
  nextDocumentId : Nat
deriving DecidableEq, Repr

/-- Outcome of an API handler: either a JSON success payload or an HTTP
error status with the error message. -/
inductive ApiResult (α : Type) where
  | ok (payload : α)
  | err (status : Nat) (msg : String)
deriving DecidableEq, Repr

/-! ### Sorting (`ORDER BY`)

`ORDER BY` is modelled by insertion sort with a boolean `le` relation;
for the total relations used here it returns some permutation of its
input that is sorted, which is exactly what SQL guarantees (ties are
broken arbitrarily). -/

/-- Insert `a` into `l` in front of the first element `b` with
`le a b`. -/
def insertSorted (le : α → α → Bool) (a : α) : List α → List α
  | [] => [a]
  | b :: l => if le a b then a :: b :: l else b :: insertSorted le a l

/-- Insertion sort by a boolean relation. -/
def sortBy (le : α → α → Bool) : List α → List α
  | [] => []
  | a :: l => insertSorted le a (sortBy le l)

theorem insertSorted_perm (le : α → α → Bool) (a : α) (l : List α) :
    List.Perm (insertSorted le a l) (a :: l) := by
  induction l with
  | nil => exact List.Perm.refl _
  | cons b l ih =>
    by_cases h : le a b = true
    · rw [insertSorted, if_pos h]
    · rw [insertSorted, if_neg h]
      exact (List.Perm.cons b ih).trans (List.Perm.swap a b l)

theorem sortBy_perm (le : α → α → Bool) (l : List α) :
    List.Perm (sortBy le l) l := by
  induction l with
  | nil => exact List.Perm.refl _
  | cons a l ih =>
    exact (insertSorted_perm le a (sortBy le l)).trans (List.Perm.cons a ih)

theorem insertSorted_sorted (le : α → α → Bool)
    (total : ∀ a b, le a b = false → le b a = true)
    (tr : ∀ a b c, le a b = true → le b c = true → le a c = true)
    (a : α) (l : List α) (h : l.Sorted (fun x y => le x y = true)) :
    (insertSorted le a l).Sorted (fun x y => le x y = true) := by
  induction l with
  | nil => simp [insertSorted]
  | cons b l ih =>
    rcases List.sorted_cons.1 h with ⟨hb, hl⟩
    by_cases hab : le a b = true
    · rw [insertSorted, if_pos hab]
      refine List.sorted_cons.2 ⟨?_, h⟩
      intro x hx
      rcases List.mem_cons.1 hx with hx' | hx'
      · subst hx'
        exact hab
      · exact tr a b x hab (hb x hx')
    · rw [insertSorted, if_neg hab]
      refine List.sorted_cons.2 ⟨?_, ih hl⟩
      intro x hx
      rcases List.mem_cons.1 ((insertSorted_perm le a l).mem_iff.1 hx) with hx' | hx'
      · rw [hx']
        exact total a b (by simpa using hab)
      · exact hb x hx'

theorem sortBy_sorted (le : α → α → Bool)
    (total : ∀ a b, le a b = false → le b a = true)
    (tr : ∀ a b c, le a b = true → le b c = true → le a c = true)
    (l : List α) :
    (sortBy le l).Sorted (fun x y => le x y = true) := by
  induction l with
  | nil => simp [sortBy]
  | cons a l ih => exact insertSorted_sorted le total tr a (sortBy le l) ih

/-! ### SQLite `LIKE`

The default SQLite `LIKE` operator: `%` matches any sequence of
characters, `_` matches any single character, and plain characters are
compared case-insensitively **for ASCII letters only** — non-ASCII
characters (such as Cyrillic) compare case-sensitively. -/

/-- ASCII-only lowercasing, as SQLite's default `LIKE` applies to both
pattern and text characters. -/
def asciiLowerChar (c : Char) : Char :=
  if 'A' ≤ c ∧ c ≤ 'Z' then Char.ofNat (c.toNat + 32) else c

/-- SQLite `LIKE` pattern matching over character lists, with an
explicit fuel argument so that recursion is structural (each step
shrinks pattern-length + text-length by at least one, so fuel
`|pattern| + |text| + 1` never runs out). -/
def likeMatchFuel : Nat → List Char → List Char → Bool
  | 0, _, _ => false
  | fuel + 1, pat, s =>
    match pat, s with
    | [], [] => true
    | [], _ :: _ => false
    | '%' :: p, s =>
      likeMatchFuel fuel p s ||
        (match s with
          | [] => false
          | _ :: s' => likeMatchFuel fuel ('%' :: p) s')
    | '_' :: _, [] => false
    | '_' :: p, _ :: s => likeMatchFuel fuel p s
    | _ :: _, [] => false
    | c :: p, d :: s => (asciiLowerChar c == asciiLowerChar d) && likeMatchFuel fuel p s

/-- SQLite `LIKE` pattern matching over character lists. -/
def likeMatch (pat s : List Char) : Bool :=
  likeMatchFuel (pat.length + s.length + 1) pat s

/-- The handler's `LIKE ?` test with parameter `'%' ++ search ++ '%'`. -/
def likeContains (search target : String) : Bool :=
  likeMatch ('%' :: (search.data ++ ['%'])) target.data

/-! ### Request-argument truthiness -/

/-- Python truthiness of `request.args.get('category_id', type=int)`:
absent (`None`) and `0` are falsy. -/
def truthyOptInt : Option Int → Bool
  | none => false
  | some c => c ≠ 0

/-- Python truthiness of an optional string: absent (`None`) and the
empty string are falsy. -/
def truthyOptStr : Option String → Bool
  | none => false
  | some s => s ≠ ""

/-- The document-generation check
`req_field not in fields_data or not fields_data[req_field]`. -/
def missingOrFalsy (fields_data : Submission) (k : String) : Bool :=
  match List.lookup k fields_data with
  | none => true
  | some v => !v.truthy

/-- `LEFT JOIN categories c ON t.category_id = c.id`, projected to
`c.name`: `none` when the reference is NULL or dangling. -/
def catNameOf (s : DBState) : Option Nat → Option String
  | none => none
  | some cid => (s.categories.find? (fun c => c.id == cid)).map (fun c => c.name)

/-- `SELECT ... FROM templates WHERE id = ?`, under the primary-key
uniqueness of `id`. -/
def findTemplate (s : DBState) (tid : Nat) : Option TemplateRow :=
  s.templates.find? (fun t => t.id == tid)

/-- `SELECT ... FROM template_fields WHERE template_id = ?` without an
`ORDER BY`: the rows in table (rowid) order. -/
def fieldsOf (s : DBState) (tid : Nat) : List TemplateFieldRow :=
  s.template_fields.filter (fun f => f.template_id == tid)

/-! ### Response payload shapes -/

/-- One entry of the `/api/categories` payload. -/
structure CategoryOut where
  id : Nat
  name : String
  description : Option String
  template_count : Nat
deriving DecidableEq, Repr

/-- One entry of the `/api/templates` payload. -/
structure TemplateSummary where
  id : Nat
  name : String
  description : Option String
  type : Option String
  category : Option String
  word_count : Option Int
  popularity : Int
deriving DecidableEq, Repr

/-- The `/api/templates/{id}` payload. -/
structure TemplateDetailOut where
  id : Nat
  name : String
  description : Option String
  type : Option String
  category : Option String
  category_id : Option Nat
  word_count : Option Int
  popularity : Int
  created_at : Nat
deriving DecidableEq, Repr

/-- One serialized field of the `/api/templates/{id}/fields` payload;
`min`, `max`, `format` and `options` are conditionally present keys,
modelled by `Option` with `none` for "key absent". -/
structure FieldOut where
  key : String
  label : String
  type : String
  required : Bool
  placeholder : String
  min : Option Int
  max : Option Int
  format : Option String
  options : Option (List String)
deriving DecidableEq, Repr

/-- The `/api/templates/{id}/fields` payload. -/
structure FieldsOut where
  template_id : Nat
  template_name : String
  fields : List FieldOut
deriving DecidableEq, Repr

/-- The `/api/documents/generate` payload. -/
structure GenerateOut where
  document_id : Nat
  message : String
  template_name : String
  generated_at : Nat
deriving DecidableEq, Repr

/-- One entry of the `/api/documents` payload. -/
structure DocumentOut where
  id : Nat
  template_id : Nat
  template_name : String
  created_at : Nat
  status : String
deriving DecidableEq, Repr

/-! ### The API handlers -/

/-- Comparator for `ORDER BY name` on categories (BINARY collation:
codepoint order, which for UTF-8 agrees with byte order). -/
def catLe (a b : CategoryRow) : Bool := decide (a.name ≤ b.name)

/-- `GET /api/categories`: every category with a live
`(SELECT COUNT(*) FROM templates WHERE category_id = categories.id)`,
ordered by name. -/
def get_categories (s : DBState) : ApiResult (List CategoryOut) :=
  .ok ((sortBy catLe s.categories).map (fun c =>
    ⟨c.id, c.name, c.description,
     (s.templates.filter (fun t => t.category_id == some c.id)).length⟩))

/-- Comparator for `ORDER BY t.popularity DESC, t.name`. -/
def templLe (t u : TemplateRow) : Bool :=
  decide (u.popularity < t.popularity) ||
    (t.popularity == u.popularity && decide (t.name ≤ u.name))

/-- The template-listing `WHERE` clause: each filter is appended only
when its request argument is truthy (`if category_id:` /
`if doc_type:` / `if search:`). -/
def keepTemplate (category_id : Option Int) (doc_type : Option String)
    (search : String) (t : TemplateRow) : Bool :=
  (!truthyOptInt category_id || t.category_id.map (fun n => (n : Int)) == category_id) &&
  ((!truthyOptStr doc_type || t.doc_type == doc_type) &&
   (search == "" || (likeContains search t.name ||
      (match t.description with
        | some d => likeContains search d
        | none => false))))

/-- `GET /api/templates?category_id=&doc_type=&search=`: filtered list,
ordered by popularity descending then name ascending.  `category_id` is
`none` when absent or not an integer; `doc_type` is `none` when absent;
`search` defaults to the empty string. -/
def get_all_templates (s : DBState) (category_id : Option Int)
    (doc_type : Option String) (search : String) :
    ApiResult (List TemplateSummary) :=
  .ok ((sortBy templLe (s.templates.filter (keepTemplate category_id doc_type search))).map
    (fun t => ⟨t.id, t.name, t.description, t.doc_type, catNameOf s t.category_id,
               t.word_count, t.popularity⟩))

/-- `GET /api/templates/{id}`: fetch the row, 404 when absent,
otherwise `UPDATE templates SET popularity = popularity + 1` and build
the payload **from the row fetched before the update** (the handler
reads `template['popularity']` from the earlier `fetchone()`). -/
def get_template_detail (template_id : Nat) (s : DBState) :
    ApiResult TemplateDetailOut × DBState :=
  match findTemplate s template_id with
  | none => (.err 404 "Шаблон не найден", s)
  | some t =>
    (.ok ⟨t.id, t.name, t.description, t.doc_type, catNameOf s t.category_id,
          t.category_id, t.word_count, t.popularity, t.created_at⟩,
     { s with templates := s.templates.map (fun u =>
         if u.id == template_id then { u with popularity := u.popularity + 1 } else u) })

/-- Comparator for `ORDER BY order_index, id` on template fields. -/
def fieldLe (f g : TemplateFieldRow) : Bool :=
  decide (f.order_index < g.order_index) ||
    (f.order_index == g.order_index && decide (f.id ≤ g.id))

/-- Serialization of one field row: `placeholder` defaults to `''` via
`field['placeholder'] or ''`; `min`/`max` are present when the column is
non-NULL; `format` when truthy; `options` when truthy, parsed by
`json.loads` (modelled by the `parse` parameter, `none` = parse error)
with `[]` on parse failure. -/
def serializeField (parse : String → Option (List String))
    (f : TemplateFieldRow) : FieldOut :=
  { key := f.field_key
    label := f.field_label
    type := f.field_type
    required := f.is_required
    placeholder := f.placeholder.getD ""
    min := f.min_value
    max := f.max_value
    format := if truthyOptStr f.format then f.format else none
    options :=
      match f.options with
      | some o => if o == "" then none else some ((parse o).getD [])
      | none => none }

/-- `GET /api/templates/{id}/fields`: 404 when the template is absent,
otherwise the template name plus its fields ordered by
`order_index, id`, each serialized by `serializeField`. -/
def get_template_fields (parse : String → Option (List String))
    (template_id : Nat) (s : DBState) : ApiResult FieldsOut :=
  match findTemplate s template_id with
  | none => .err 404 "Шаблон не найден"
  | some t =>
    .ok ⟨template_id, t.name,
         (sortBy fieldLe (fieldsOf s template_id)).map (serializeField parse)⟩

/-- `POST /api/documents/generate` (after body parsing): 404 when the
template is absent; 400 naming the first required field whose submitted
value is missing or falsy, iterating the unordered
`SELECT ... FROM template_fields WHERE template_id = ?` result; on
success one `filled_documents` row is inserted with status
`'generated'` and `document_data = dumps fields_data`. -/
def generate_document (dumps : Submission → String) (now : Nat)
    (template_id : Nat) (fields_data : Submission) (s : DBState) :
    ApiResult GenerateOut × DBState :=
  match findTemplate s template_id with
  | none => (.err 404 "Шаблон не найден", s)
  | some t =>
    let template_fields := fieldsOf s template_id
    let required_fields := (template_fields.filter (fun f => f.is_required)).map
      (fun f => f.field_key)
    match required_fields.find? (fun k => missingOrFalsy fields_data k) with
    | some k => (.err 400 ("Обязательное поле \"" ++ k ++ "\" не заполнено"), s)
    | none =>
      (.ok ⟨s.nextDocumentId, "Документ успешно создан", t.name, now⟩,
       { s with
           filled_documents := s.filled_documents ++
             [⟨s.nextDocumentId, template_id, none, dumps fields_data, now, "generated"⟩]
           nextDocumentId := s.nextDocumentId + 1 })

/-- Comparator for `ORDER BY fd.created_at DESC` on joined document
rows. -/
def docLe (a b : FilledDocumentRow × TemplateRow) : Bool :=
  decide (b.1.created_at ≤ a.1.created_at)

/-- The `JOIN templates t ON fd.template_id = t.id` of the
document-listing query: documents whose template row is missing are
dropped. -/
def joinDocs (s : DBState) : List (FilledDocumentRow × TemplateRow) :=
  s.filled_documents.filterMap (fun d =>
    (findTemplate s d.template_id).map (fun t => (d, t)))

/-- `GET /api/documents`: inner join with templates, ordered by
`created_at` descending, `LIMIT 100`. -/
def get_documents (s : DBState) : ApiResult (List DocumentOut) :=
  .ok (((sortBy docLe (joinDocs s)).take 100).map
    (fun p => ⟨p.1.id, p.1.template_id, p.2.name, p.1.created_at, p.1.status⟩))

/-! ### Seeding (`POST /api/admin/seed`)

The handler deletes all rows of `template_fields`, `templates` and
`categories` (in that order), inserts the fixed catalog, and reports
the number of template rows successfully inserted.  A failed insert of
one template (a bad category key or a violated `CHECK` constraint, the
only failure modes the schema allows here) is caught and skipped.
SQLite's `AUTOINCREMENT` counters are not reset by the deletes. -/

/-- Allowed `templates.doc_type` values (`CHECK` constraint). -/
def docTypeEnum : List String :=
  ["Договор", "Заявление", "Исковое заявление", "Соглашение", "Расторжение",
   "Акт", "Доверенность", "Приказ", "Прочее"]

/-- Allowed `template_fields.field_type` values (`CHECK` constraint). -/
def fieldTypeEnum : List String :=
  ["text", "number", "date", "email", "phone", "select", "textarea", "boolean"]

/-- The `CHECK(doc_type IN (...))` constraint: NULL passes. -/
def docTypeCheckOk : Option String → Bool
  | none => true
  | some d => decide (d ∈ docTypeEnum)

/-- One field definition of the hardcoded seed catalog (a Python dict
with keys `key`, `label`, `type`, `required`, and optional
`placeholder`, `min`, `max`, `options`). -/
structure SeedField where
  key : String
  label : String
  type : String
  required : Bool
  placeholder : Option String
  min : Option Int
  max : Option Int
  options : Option (List String)
deriving DecidableEq, Repr

/-- Shorthand constructor for a seed field definition. -/
def mkF (key label type : String) (required : Bool) (placeholder : Option String)
    (min max : Option Int) (options : Option (List String)) : SeedField :=
  ⟨key, label, type, required, placeholder, min, max, options⟩

/-- One template of the hardcoded seed catalog. -/
structure SeedTemplate where
  name : String
  category : String
  type : String
  word_count : Int
  description : String
  fields : List SeedField
deriving DecidableEq, Repr

/-- `json.dumps` of a list of option strings, as stored in the
`options` column. -/
def strListJson (l : List String) : String :=
  "[" ++ String.intercalate ", " (l.map (fun s => "\"" ++ s ++ "\"")) ++ "]"

/-- `INSERT INTO categories (name, description) VALUES (?, ?)`;
returns the new state and `lastrowid`. -/
def insertCategory (s : DBState) (name desc : String) : DBState × Nat :=
  ({ s with
       categories := s.categories ++ [⟨s.nextCategoryId, name, some desc⟩]
       nextCategoryId := s.nextCategoryId + 1 },
   s.nextCategoryId)

/-- The category loop of the seed handler, accumulating the
`category_ids` name-to-id mapping. -/
def categoriesLoop : List (String × String) → DBState → List (String × Nat) →
    DBState × List (String × Nat)
  | [], s, acc => (s, acc)
  | (n, d) :: rest, s, acc =>
    let (s', cid) := insertCategory s n d
    categoriesLoop rest s' (acc ++ [(n, cid)])

/-- `INSERT INTO template_fields ...` for seed entry `f` with
`order_index = i`; `none` when the `field_type` `CHECK` constraint
rejects the row.  The seed insert supplies no `format`, so that column
is NULL. -/
def insertField (s : DBState) (tid : Nat) (f : SeedField) (i : Nat) : Option DBState :=
  if f.type ∈ fieldTypeEnum then
    some { s with
             template_fields := s.template_fields ++
               [⟨s.nextFieldId, tid, f.key, f.label, f.type, f.required, f.min, f.max,
                 none, f.placeholder, f.options.map strListJson, (i : Int)⟩]
             nextFieldId := s.nextFieldId + 1 }
  else none

/-- The per-template field-insert loop: a failing insert raises, so the
remaining fields of this template are not inserted, but the rows
already inserted stay (the transaction is only committed at the end of
the handler, and the caught exception does not roll it back). -/
def insertFieldsLoop (tid : Nat) : List SeedField → Nat → DBState → DBState
  | [], _, s => s
  | f :: rest, i, s =>
    match insertField s tid f i with
    | some s' => insertFieldsLoop tid rest (i + 1) s'
    | none => s

/-- `INSERT INTO templates (category_id, name, description, doc_type,
word_count) VALUES (?, ?, ?, ?, ?)`; `none` when the `doc_type` `CHECK`
constraint rejects the row.  `popularity` defaults to 0, `created_at`
to the current timestamp. -/
def insertTemplate (s : DBState) (cid : Option Nat) (name desc : String)
    (dt : Option String) (wc : Int) (now : Nat) : Option (DBState × Nat) :=
  if docTypeCheckOk dt then
    some ({ s with
              templates := s.templates ++
                [⟨s.nextTemplateId, cid, name, some desc, dt, some wc, 0, now⟩]
              nextTemplateId := s.nextTemplateId + 1 },
          s.nextTemplateId)
  else none

/-- One iteration of the seed's template loop body: look up
`category_ids[template['category']]` (a missing key raises), insert the
template row, then best-effort insert its fields.  `none` exactly when
the template row itself was not inserted. -/
def tryInsertSeedTemplate (catIds : List (String × Nat)) (now : Nat)
    (e : SeedTemplate) (s : DBState) : Option DBState :=
  match List.lookup e.category catIds with
  | none => none
  | some cid =>
    match insertTemplate s (some cid) e.name e.description (some e.type) e.word_count now with
    | none => none
    | some (s', tid) => some (insertFieldsLoop tid e.fields 0 s')

/-- The seed's template loop: failures are logged and skipped
(`continue`), successes bump `added_count`. -/
def templatesLoop (catIds : List (String × Nat)) (now : Nat) :
    List SeedTemplate → DBState → Nat → DBState × Nat
  | [], s, n => (s, n)
  | e :: rest, s, n =>
    match tryInsertSeedTemplate catIds now e s with
    | some s' => templatesLoop catIds now rest s' (n + 1)
    | none => templatesLoop catIds now rest s n

/-- The `/api/admin/seed` payload. -/
structure SeedOut where
  message : String
  templates_added : Nat
  templates_list : List String
deriving DecidableEq, Repr

/-- The 8 hardcoded seed categories `(name, description)`. -/
def seedCategories : List (String × String) :=
  [("Договоры", "Юридические договоры различных типов"),
   ("Заявления", "Официальные заявления"),
   ("Исковые заявления", "Документы для подачи в суд"),
   ("Соглашения и расторжения", "Дополнительные соглашения и расторжения договоров"),
   ("Акты", "Акты приема-передачи и другие акты"),
   ("Доверенности", "Доверенности различного назначения"),
   ("Приказы", "Организационно-распорядительные документы"),
   ("Прочее", "Прочие документы")]

/-- The 10 hardcoded seed templates (`templates_data` in the
handler). -/
def seedTemplates : List SeedTemplate :=
  [⟨"Образец договора аренды квартиры с мебелью и бытовой техникой", "Договоры",
    "Договор", 149900,
    "Полный договор аренды квартиры с мебелью и техникой для длительной аренды",
    [mkF "landlord_name" "ФИО Арендодателя" "text" true (some "Иванов Иван Иванович") none none none,
     mkF "landlord_passport" "Паспортные данные Арендодателя" "text" true (some "Серия 1234 №567890 выдан ОВД района") none none none,
     mkF "tenant_name" "ФИО Арендатора" "text" true (some "Петров Петр Петрович") none none none,
     mkF "tenant_passport" "Паспортные данные Арендатора" "text" true (some "Серия 4321 №098765 выдан ОВД района") none none none,
     mkF "address" "Адрес квартиры" "text" true (some "г. Москва, ул. Ленина, д. 1, кв. 1") none none none,
     mkF "apartment_area" "Площадь квартиры (кв.м.)" "number" true none (some 10) (some 500) none,
     mkF "rooms_count" "Количество комнат" "number" true none (some 1) (some 10) none,
     mkF "rent_amount" "Сумма аренды (руб./мес.)" "number" true none (some 1000) (some 1000000) none,
     mkF "start_date" "Дата начала аренды" "date" true none none none none,
     mkF "end_date" "Дата окончания аренды" "date" true none none none none,
     mkF "deposit" "Залог (руб.)" "number" false none (some 0) none none,
     mkF "utilities_included" "Коммунальные услуги включены" "boolean" false none none none none]⟩,
   ⟨"Договор купли-продажи транспортного средства", "Договоры", "Договор", 20017,
    "Договор купли-продажи автомобиля между физическими лицами",
    [mkF "seller_name" "ФИО Продавца" "text" true (some "Сидоров Алексей Владимирович") none none none,
     mkF "seller_passport" "Паспортные данные Продавца" "text" true (some "Серия 1111 №222222") none none none,
     mkF "buyer_name" "ФИО Покупателя" "text" true (some "Кузнецов Дмитрий Сергеевич") none none none,
     mkF "buyer_passport" "Паспортные данные Покупателя" "text" true (some "Серия 3333 №444444") none none none,
     mkF "car_brand" "Марка автомобиля" "text" true (some "Toyota") none none none,
     mkF "car_model" "Модель автомобиля" "text" true (some "Camry") none none none,
     mkF "car_year" "Год выпуска" "number" true none (some 1980) (some 2024) none,
     mkF "vin" "VIN номер" "text" true (some "JTDBR32E160123456") none none none,
     mkF "state_number" "Государственный номер" "text" true (some "А123БВ77") none none none,
     mkF "price" "Цена (руб.)" "number" true none (some 1000) (some 10000000) none,
     mkF "sale_date" "Дата продажи" "date" true none none none none,
     mkF "payment_method" "Способ оплаты" "select" true none none none (some ["Наличные", "Банковский перевод", "Другое"])]⟩,
   ⟨"Образец трудового договора", "Договоры", "Договор", 79545,
    "Стандартный трудовой договор между работодателем и работником",
    [mkF "employer_name" "Наименование работодателя" "text" true (some "ООО \"Ромашка\"") none none none,
     mkF "employer_details" "Реквизиты работодателя" "textarea" true (some "ИНН 1234567890, ОГРН 1234567890123") none none none,
     mkF "employee_name" "ФИО работника" "text" true (some "Смирнова Анна Петровна") none none none,
     mkF "employee_passport" "Паспортные данные работника" "text" true none none none none,
     mkF "position" "Должность" "text" true (some "Менеджер по продажам") none none none,
     mkF "department" "Отдел/подразделение" "text" true (some "Отдел продаж") none none none,
     mkF "salary" "Оклад (руб.)" "number" true none (some 16242) (some 1000000) none,
     mkF "start_date" "Дата начала работы" "date" true none none none none,
     mkF "contract_type" "Вид договора" "select" true none none none (some ["Бессрочный", "Срочный (до 5 лет)", "Сезонный", "На время выполнения работы"]),
     mkF "probation_period" "Испытательный срок (месяцев)" "number" false none (some 0) (some 6) none,
     mkF "work_schedule" "График работы" "select" true none none none (some ["5/2", "6/1", "Сменный", "Гибкий"])]⟩,
   ⟨"Образец заявления на оплачиваемый отпуск", "Заявления", "Заявление", 15284,
    "Заявление на ежегодный оплачиваемый отпуск",
    [mkF "to_director" "Кому (должность, ФИО)" "text" true (some "Генеральному директору ООО \"Ромашка\" Иванову И.И.") none none none,
     mkF "employee_name" "От кого (ФИО сотрудника)" "text" true (some "Петрова Мария Сергеевна") none none none,
     mkF "position" "Должность" "text" true (some "Менеджер") none none none,
     mkF "department" "Отдел" "text" true (some "Отдел маркетинга") none none none,
     mkF "vacation_start" "Дата начала отпуска" "date" true none none none none,
     mkF "vacation_end" "Дата окончания отпуска" "date" true none none none none,
     mkF "vacation_days" "Количество календарных дней" "number" true none (some 1) (some 60) none,
     mkF "vacation_type" "Тип отпуска" "select" true none none none (some ["Ежегодный оплачиваемый", "Без сохранения зарплаты", "Учебный", "По беременности и родам"]),
     mkF "application_date" "Дата заявления" "date" true none none none none,
     mkF "phone" "Контактный телефон" "phone" false (some "+7 (999) 123-45-67") none none none]⟩,
   ⟨"Образец договора подряда, заключаемого между юридическим и физическим лицом", "Договоры",
    "Договор", 217729,
    "Договор подряда на выполнение работ между компанией и физическим лицом",
    [mkF "customer_name" "Наименование Заказчика (компания)" "text" true (some "ООО \"СтройГарант\"") none none none,
     mkF "customer_details" "Реквизиты Заказчика" "textarea" true none none none none,
     mkF "contractor_name" "ФИО Подрядчика" "text" true none none none none,
     mkF "contractor_passport" "Паспортные данные Подрядчика" "text" true none none none none,
     mkF "work_description" "Описание работ" "textarea" true (some "Ремонт офисного помещения") none none none,
     mkF "work_address" "Адрес выполнения работ" "text" true none none none none,
     mkF "start_date" "Дата начала работ" "date" true none none none none,
     mkF "end_date" "Дата окончания работ" "date" true none none none none,
     mkF "contract_price" "Цена договора (руб.)" "number" true none (some 1000) none none,
     mkF "advance_payment" "Аванс (руб.)" "number" false none (some 0) none none,
     mkF "payment_schedule" "График платежей" "textarea" false (some "50% - аванс, 50% - после приемки работ") none none none]⟩,
   ⟨"Образец искового заявления о взыскании алиментов на ребенка", "Исковые заявления",
    "Исковое заявление", 52892,
    "Исковое заявление о взыскании алиментов на несовершеннолетнего ребенка",
    [mkF "court_name" "Наименование суда" "text" true (some "Мировой суд судебного участка №1") none none none,
     mkF "plaintiff_name" "ФИО Истца (получателя алиментов)" "text" true none none none none,
     mkF "plaintiff_address" "Адрес Истца" "text" true none none none none,
     mkF "plaintiff_phone" "Телефон Истца" "phone" true none none none none,
     mkF "defendant_name" "ФИО Ответчика (плательщика алиментов)" "text" true none none none none,
     mkF "defendant_address" "Адрес Ответчика" "text" true none none none none,
     mkF "child_name" "ФИО ребенка" "text" true none none none none,
     mkF "child_birthdate" "Дата рождения ребенка" "date" true none none none none,
     mkF "child_birth_certificate" "Свидетельство о рождении" "text" true (some "серия II-АБ №123456") none none none,
     mkF "marriage_status" "Брак зарегистрирован" "boolean" true none none none none,
     mkF "alimony_amount" "Размер алиментов" "select" true none none none (some ["1/4 заработка", "1/3 заработка", "1/2 заработка", "Твердая денежная сумма"]),
     mkF "request" "Прошу взыскать" "textarea" true (some "Взыскать с Ответчика алименты на содержание ребенка...") none none none]⟩,
   ⟨"Образец доверенности в налоговую от юридического лица", "Доверенности",
    "Доверенность", 7894,
    "Доверенность на представление интересов компании в налоговой инспекции",
    [mkF "company_name" "Наименование организации" "text" true (some "ООО \"Вектор\"") none none none,
     mkF "company_details" "Реквизиты организации" "textarea" true (some "ИНН 1234567890, ОГРН 1234567890123, адрес: г. Москва...") none none none,
     mkF "director_name" "ФИО руководителя" "text" true (some "Генеральный директор Иванов И.И.") none none none,
     mkF "trustee_name" "ФИО доверенного лица" "text" true none none none none,
     mkF "trustee_passport" "Паспортные данные доверенного лица" "text" true none none none none,
     mkF "tax_office" "Наименование налоговой инспекции" "text" true (some "ИФНС России №1 по г. Москве") none none none,
     mkF "purpose" "Цель доверенности" "textarea" true (some "Представлять интересы организации, подавать документы, получать документы...") none none none,
     mkF "validity_period" "Срок действия (месяцев)" "number" true none (some 1) (some 36) none,
     mkF "issue_date" "Дата выдачи доверенности" "date" true none none none none,
     mkF "with_right_of_substitution" "С правом передоверия" "boolean" false none none none none]⟩,
   ⟨"Образец расторжения договора по соглашению сторон", "Соглашения и расторжения",
    "Расторжение", 35118,
    "Соглашение о расторжении договора по взаимному согласию сторон",
    [mkF "original_contract_number" "Номер расторгаемого договора" "text" true (some "№123 от 01.01.2023") none none none,
     mkF "original_contract_date" "Дата расторгаемого договора" "date" true none none none none,
     mkF "party1_name" "Наименование Стороны 1" "text" true none none none none,
     mkF "party1_details" "Реквизиты Стороны 1" "textarea" true none none none none,
     mkF "party2_name" "Наименование Стороны 2" "text" true none none none none,
     mkF "party2_details" "Реквизиты Стороны 2" "textarea" true none none none none,
     mkF "termination_date" "Дата расторжения договора" "date" true none none none none,
     mkF "termination_reason" "Причина расторжения" "textarea" true (some "По взаимному согласию сторон в связи с...") none none none,
     mkF "mutual_settlements" "Взаиморасчеты произведены" "boolean" true none none none none,
     mkF "no_claims" "Стороны претензий друг к другу не имеют" "boolean" true none none none none,
     mkF "signature_date" "Дата подписания соглашения" "date" true none none none none]⟩,
   ⟨"Образец акта приема-передачи автомобиля (простой)", "Акты", "Акт", 22754,
    "Акт приема-передачи транспортного средства",
    [mkF "act_number" "Номер акта" "text" true (some "АКТ-1") none none none,
     mkF "act_date" "Дата составления акта" "date" true none none none none,
     mkF "transferor_name" "ФИО передающего" "text" true none none none none,
     mkF "transferee_name" "ФИО принимающего" "text" true none none none none,
     mkF "car_brand" "Марка автомобиля" "text" true none none none none,
     mkF "car_model" "Модель автомобиля" "text" true none none none none,
     mkF "car_year" "Год выпуска" "number" true none none none none,
     mkF "vin" "VIN номер" "text" true none none none none,
     mkF "state_number" "Государственный номер" "text" true none none none none,
     mkF "mileage" "Пробег (км)" "number" true none (some 0) none none,
     mkF "condition_description" "Описание состояния" "textarea" true (some "Автомобиль передан в исправном техническом состоянии...") none none none,
     mkF "documents_list" "Передаваемые документы" "textarea" true (some "ПТС, СТС, ключи (2 шт.), сервисная книжка...") none none none,
     mkF "transfer_purpose" "Цель передачи" "select" true none none none (some ["Продажа", "Аренда", "Хранение", "Ремонт", "Другое"])]⟩,
   ⟨"Образец завещания имущества (с подназначением наследника)", "Прочее", "Прочее", 3734,
    "Завещание с указанием основного и подназначенного наследника",
    [mkF "testator_name" "ФИО Завещателя" "text" true none none none none,
     mkF "testator_passport" "Паспортные данные Завещателя" "text" true none none none none,
     mkF "testator_address" "Адрес Завещателя" "text" true none none none none,
     mkF "testator_birthdate" "Дата рождения Завещателя" "date" true none none none none,
     mkF "notary_name" "ФИО нотариуса" "text" true none none none none,
     mkF "notary_office" "Нотариальная контора" "text" true none none none none,
     mkF "main_heir_name" "ФИО основного наследника" "text" true none none none none,
     mkF "main_heir_relation" "Отношение к Завещателю" "text" true (some "сын, дочь, супруг(а)") none none none,
     mkF "substitute_heir_name" "ФИО подназначенного наследника" "text" false none none none none,
     mkF "property_description" "Описание завещаемого имущества" "textarea" true (some "Квартира, расположенная по адресу... Автомобиль марки... Денежные средства...") none none none,
     mkF "special_conditions" "Особые условия" "textarea" false (some "Имущество не подлежит разделу... Наследник обязуется...") none none none,
     mkF "execution_date" "Дата составления завещания" "date" true none none none none]⟩]

/-- `POST /api/admin/seed`: wipe the three catalog tables (fields,
templates, categories — in that order), reinsert the fixed catalog,
and report the number of templates successfully added.
`filled_documents` and the `AUTOINCREMENT` counters are untouched by
the deletes. -/
def seed_database (now : Nat) (s : DBState) : ApiResult SeedOut × DBState :=
  let s0 := { s with template_fields := [], templates := [], categories := [] }
  let r1 := categoriesLoop seedCategories s0 []
  let r2 := templatesLoop r1.2 now seedTemplates r1.1 0
  (.ok ⟨"База данных успешно заполнена! Добавлено " ++ toString r2.2 ++ " шаблонов.",
        r2.2, (seedTemplates.map (fun t => t.name)).take r2.2⟩,
   r2.1)

/-! ### Example states for witnesses -/

/-- The freshly initialised database: empty tables, sequence counters
at 1. -/
def emptyDB : DBState := ⟨[], [], [], [], 1, 1, 1, 1⟩

/-- The database produced by one seed call on the fresh database. -/
def seededDB : DBState := (seed_database 0 emptyDB).2

/-! ### C7 -/

/-- C7: a GET of template detail with an id for which no template
exists returns 404 with the not-found message, and the database state —
every row of every table — is unchanged. -/
theorem C7_detail_not_found (s : DBState) (tid : Nat)
    (h : findTemplate s tid = none) :
    get_template_detail tid s = (.err 404 "Шаблон не найден", s) := by
  simp [get_template_detail, h]

/-- Witness for C7 at the fresh database and id 5. -/
theorem C7_witness :
    findTemplate emptyDB 5 = none ∧
    get_template_detail 5 emptyDB = (.err 404 "Шаблон не найден", emptyDB) :=
  ⟨rfl, C7_detail_not_found emptyDB 5 rfl⟩

/-! ### C10 -/

/-- C10: a template-listing request with `category_id = 0` is
indistinguishable from one with `category_id` omitted: Python's
truthiness check `if category_id:` skips the category filter for 0, so
the results coincide (rather than returning the templates whose
category id is 0, i.e. none). -/
theorem C10_zero_category_id (s : DBState) (dt : Option String) (search : String) :
    get_all_templates s (some 0) dt search = get_all_templates s none dt search := by
  have hk : keepTemplate (some 0) dt search = keepTemplate none dt search := by
    funext t
    simp [keepTemplate, truthyOptInt]
  unfold get_all_templates
  rw [hk]

/-! ### C1 -/

/-- State after `n` sequential GET detail calls for template `tid`. -/
def detailIter (tid : Nat) : Nat → DBState → DBState
  | 0, s => s
  | n + 1, s => detailIter tid n (get_template_detail tid s).2

/-- The popularity update `UPDATE templates SET popularity =
popularity + k WHERE id = tid` applied to one row. -/
def bumpPopularity (tid : Nat) (k : Int) (u : TemplateRow) : TemplateRow :=
  if u.id == tid then { u with popularity := u.popularity + k } else u

theorem bumpPopularity_zero (tid : Nat) (u : TemplateRow) :
    bumpPopularity tid 0 u = u := by
  cases u
  simp [bumpPopularity]

theorem bumpPopularity_add (tid : Nat) (j k : Int) (u : TemplateRow) :
    bumpPopularity tid j (bumpPopularity tid k u) = bumpPopularity tid (k + j) u := by
  cases u with
  | mk uid cid nm ds dt wc pop ca =>
    by_cases h : uid = tid <;> simp [bumpPopularity, h, add_assoc]

theorem find?_bump (l : List TemplateRow) (tid : Nat) (k : Int) :
    (l.map (bumpPopularity tid k)).find? (fun t => t.id == tid)
      = (l.find? (fun t => t.id == tid)).map (bumpPopularity tid k) := by
  rw [List.find?_map]
  have hp : ((fun t : TemplateRow => t.id == tid) ∘ bumpPopularity tid k)
      = (fun t : TemplateRow => t.id == tid) := by
    funext u
    by_cases h : u.id = tid <;> simp [Function.comp, bumpPopularity, h]
  rw [hp]

/-- One successful detail call: the response is built from the row as
fetched **before** the popularity update, and the new state bumps
exactly the matching row's popularity by 1. -/
theorem detail_found (s : DBState) (tid : Nat) (t : TemplateRow)
    (h : findTemplate s tid = some t) :
    get_template_detail tid s =
      (.ok ⟨t.id, t.name, t.description, t.doc_type, catNameOf s t.category_id,
            t.category_id, t.word_count, t.popularity, t.created_at⟩,
       { s with templates := s.templates.map (bumpPopularity tid 1) }) := by
  simp only [get_template_detail, h]
  congr 1

theorem catNameOf_congr (s₁ s₂ : DBState) (h : s₁.categories = s₂.categories) :
    catNameOf s₁ = catNameOf s₂ := by
  funext cid
  cases cid <;> simp [catNameOf, h]

theorem detailIter_spec (tid : Nat) :
    ∀ (n : Nat) (s : DBState) (t : TemplateRow), findTemplate s tid = some t →
      (detailIter tid n s).templates = s.templates.map (bumpPopularity tid (n : Int)) ∧
      (detailIter tid n s).categories = s.categories ∧
      (detailIter tid n s).template_fields = s.template_fields ∧
      (detailIter tid n s).filled_documents = s.filled_documents ∧
      findTemplate (detailIter tid n s) tid
        = some { t with popularity := t.popularity + (n : Int) } := by
  intro n
  induction n with
  | zero =>
    intro s t h
    refine ⟨?_, rfl, rfl, rfl, ?_⟩
    · have h0 : bumpPopularity tid ((0 : Nat) : Int) = id := by
        funext u
        simp [bumpPopularity_zero]
      show s.templates = s.templates.map (bumpPopularity tid ((0 : Nat) : Int))
      rw [h0, List.map_id]
    · cases t
      simpa [detailIter] using h
  | succ n ih =>
    intro s t h
    have hstep := detail_found s tid t h
    have hs₁ : (get_template_detail tid s).2
        = { s with templates := s.templates.map (bumpPopularity tid 1) } := by
      rw [hstep]
    have hid : (t.id == tid) = true := by
      have h' : s.templates.find? (fun u => u.id == tid) = some t := h
      have h'' := List.find?_some h'
      exact h''
    have hfind₁ : findTemplate (get_template_detail tid s).2 tid
        = some (bumpPopularity tid 1 t) := by
      rw [hs₁]
      show ((s.templates.map (bumpPopularity tid 1)).find? (fun u => u.id == tid)) = _
      rw [find?_bump]
      rw [show s.templates.find? (fun u => u.id == tid) = some t from h]
      rfl
    obtain ⟨h1, h2, h3, h4, h5⟩ := ih (get_template_detail tid s).2 (bumpPopularity tid 1 t) hfind₁
    have hiter : detailIter tid (n + 1) s = detailIter tid n (get_template_detail tid s).2 := rfl
    refine ⟨?_, ?_, ?_, ?_, ?_⟩
    · rw [hiter, h1, hs₁]
      show (s.templates.map (bumpPopularity tid 1)).map (bumpPopularity tid (n : Int)) = _
      rw [List.map_map]
      apply List.map_congr_left
      intro u _
      show bumpPopularity tid (n : Int) (bumpPopularity tid 1 u) = _
      rw [bumpPopularity_add]
      congr 1
      omega
    · rw [hiter, h2, hs₁]
    · rw [hiter, h3, hs₁]
    · rw [hiter, h4, hs₁]
    · rw [hiter, h5]
      simp only [bumpPopularity, hid, if_pos]
      congr 2
      push_cast
      ring

/-- C1 (amended): for every existing template id, each GET of template
detail increments that template's stored popularity counter by exactly
1 and mutates nothing else, so `n + 1` sequential calls leave the
stored popularity at `original + (n + 1)`; but the response of the
`(n + 1)`-th call is built from the row fetched before that call's
update, so it reports the full record with popularity
`original + n` — the pre-increment value — not `original + n + 1`. -/
theorem C1_detail_popularity (s : DBState) (tid : Nat) (t : TemplateRow)
    (h : findTemplate s tid = some t) (n : Nat) :
    (detailIter tid (n + 1) s).templates
        = s.templates.map (bumpPopularity tid ((n : Int) + 1)) ∧
    (detailIter tid (n + 1) s).categories = s.categories ∧
    (detailIter tid (n + 1) s).template_fields = s.template_fields ∧
    (detailIter tid (n + 1) s).filled_documents = s.filled_documents ∧
    (get_template_detail tid (detailIter tid n s)).1
        = .ok ⟨t.id, t.name, t.description, t.doc_type, catNameOf s t.category_id,
               t.category_id, t.word_count, t.popularity + (n : Int), t.created_at⟩ := by
  obtain ⟨h1, h2, h3, h4, h5⟩ := detailIter_spec tid (n + 1) s t h
  obtain ⟨g1, g2, g3, g4, g5⟩ := detailIter_spec tid n s t h
  refine ⟨?_, h2, h3, h4, ?_⟩
  · have hc : ((n + 1 : Nat) : Int) = (n : Int) + 1 := by push_cast; ring
    rw [h1, hc]
  · rw [detail_found (detailIter tid n s) tid _ g5]
    rw [catNameOf_congr _ s g2]

set_option maxRecDepth 40000 in
/-- C1 counterexample: on the freshly seeded database, template 1 has
stored popularity 0; one GET of its detail leaves the stored popularity
at 1 but the response reports popularity 0 — the response's popularity
is not the post-increment value, contradicting the claim. -/
theorem C1_counterexample :
    ((findTemplate seededDB 1).map (fun t => t.popularity) = some 0) ∧
    ((findTemplate (get_template_detail 1 seededDB).2 1).map (fun t => t.popularity)
        = some 1) ∧
    (∀ d, (get_template_detail 1 seededDB).1 = .ok d → d.popularity = 0 ∧ d.popularity ≠ 1) := by
  refine ⟨by decide, by decide, ?_⟩
  intro d hd
  have : (get_template_detail 1 seededDB).1
      = .ok ⟨1, "Образец договора аренды квартиры с мебелью и бытовой техникой",
             some "Полный договор аренды квартиры с мебелью и техникой для длительной аренды",
             some "Договор", some "Договоры", some 1, some 149900, 0, 0⟩ := by decide
  rw [this] at hd
  cases hd
  exact ⟨rfl, by decide⟩

set_option maxRecDepth 40000 in
/-- Witness for C1 at the seeded database, template 1, first call
(`n = 0`): the response reports popularity 0 while the stored counter
moves to 1. -/
theorem C1_witness :
    (get_template_detail 1 (detailIter 1 0 seededDB)).1
      = .ok ⟨1, "Образец договора аренды квартиры с мебелью и бытовой техникой",
             some "Полный договор аренды квартиры с мебелью и техникой для длительной аренды",
             some "Договор", some "Договоры", some 1, some 149900, 0, 0⟩ := by
  have h := (C1_detail_popularity seededDB 1
      ⟨1, some 1, "Образец договора аренды квартиры с мебелью и бытовой техникой",
       some "Полный договор аренды квартиры с мебелью и техникой для длительной аренды",
       some "Договор", some 149900, 0, 0⟩ (by decide) 0).2.2.2.2
  simpa using h

/-! ### C2 and C3 -/

theorem sortBy_of_sorted (le : α → α → Bool) (l : List α)
    (h : l.Sorted (fun x y => le x y = true)) : sortBy le l = l := by
  induction l with
  | nil => rfl
  | cons a l ih =>
    rcases List.sorted_cons.1 h with ⟨ha, hl⟩
    rw [sortBy, ih hl]
    cases l with
    | nil => rfl
    | cons b m => rw [insertSorted, if_pos (ha b (by simp))]

/-- C2: when the template exists, the rows of its fields in table order
agree with the template field order (`order_index`, then `id`) — true
in every state this program creates, since the seed inserts each
template's fields with increasing `order_index` and increasing ids —
and some required field of the submission is missing or falsy, document
generation fails with HTTP 400 naming the first such field in template
field order, and the database state (in particular `filled_documents`)
is unchanged. -/
theorem C2_missing_required (dumps : Submission → String) (now : Nat)
    (s : DBState) (tid : Nat) (sub : Submission) (t : TemplateRow)
    (f : TemplateFieldRow)
    (h : findTemplate s tid = some t)
    (hsort : (fieldsOf s tid).Sorted (fun a b => fieldLe a b = true))
    (hf : ((sortBy fieldLe (fieldsOf s tid)).filter (fun g => g.is_required)).find?
        (fun g => missingOrFalsy sub g.field_key) = some f) :
    generate_document dumps now tid sub s
      = (.err 400 ("Обязательное поле \"" ++ f.field_key ++ "\" не заполнено"), s) := by
  rw [sortBy_of_sorted _ _ hsort] at hf
  have hkeys : (((fieldsOf s tid).filter (fun g => g.is_required)).map
        (fun g => g.field_key)).find? (fun k => missingOrFalsy sub k)
      = some f.field_key := by
    rw [List.find?_map]
    rw [show ((fieldsOf s tid).filter (fun g => g.is_required)).find?
        ((fun k => missingOrFalsy sub k) ∘ (fun g => g.field_key)) = some f from hf]
    rfl
  simp only [generate_document, h, hkeys]

/-- C3: when the template exists and every required field of that
template has a present, truthy value in the submission, document
generation appends exactly one new `filled_documents` row — with status
`"generated"`, document data the serialized submission, the template's
id and the fresh `AUTOINCREMENT` id — touches nothing else, and
responds with the generated id, the template name and the generation
timestamp. -/
theorem C3_generate_success (dumps : Submission → String) (now : Nat)
    (s : DBState) (tid : Nat) (sub : Submission) (t : TemplateRow)
    (h : findTemplate s tid = some t)
    (hv : ∀ g ∈ (fieldsOf s tid).filter (fun g => g.is_required),
        missingOrFalsy sub g.field_key = false) :
    generate_document dumps now tid sub s
      = (.ok ⟨s.nextDocumentId, "Документ успешно создан", t.name, now⟩,
         { s with
             filled_documents := s.filled_documents ++
               [⟨s.nextDocumentId, tid, none, dumps sub, now, "generated"⟩]
             nextDocumentId := s.nextDocumentId + 1 }) := by
  have hkeys : (((fieldsOf s tid).filter (fun g => g.is_required)).map
        (fun g => g.field_key)).find? (fun k => missingOrFalsy sub k) = none := by
    rw [List.find?_map, List.find?_eq_none.2]
    · rfl
    · intro g hg
      simp [Function.comp, hv g hg]
  simp only [generate_document, h, hkeys]

set_option maxRecDepth 40000 in
/-- Witness for C2 at the seeded database: template 1 with the empty
submission; the first missing required field in template field order is
`landlord_name`. -/
theorem C2_witness :
    findTemplate seededDB 1
        = some ⟨1, some 1, "Образец договора аренды квартиры с мебелью и бытовой техникой",
                some "Полный договор аренды квартиры с мебелью и техникой для длительной аренды",
                some "Договор", some 149900, 0, 0⟩ ∧
    (fieldsOf seededDB 1).Sorted (fun a b => fieldLe a b = true) ∧
    ((sortBy fieldLe (fieldsOf seededDB 1)).filter (fun g => g.is_required)).find?
        (fun g => missingOrFalsy [] g.field_key)
      = some ⟨1, 1, "landlord_name", "ФИО Арендодателя", "text", true, none, none, none,
              some "Иванов Иван Иванович", none, 0⟩ ∧
    generate_document (fun _ => "\x7b\x7d") 0 1 [] seededDB
      = (.err 400 "Обязательное поле \"landlord_name\" не заполнено", seededDB) :=
  ⟨by decide, by decide, by decide,
   C2_missing_required (fun _ => "\x7b\x7d") 0 seededDB 1 []
     ⟨1, some 1, "Образец договора аренды квартиры с мебелью и бытовой техникой",
      some "Полный договор аренды квартиры с мебелью и техникой для длительной аренды",
      some "Договор", some 149900, 0, 0⟩
     ⟨1, 1, "landlord_name", "ФИО Арендодателя", "text", true, none, none, none,
      some "Иванов Иван Иванович", none, 0⟩
     (by decide) (by decide) (by decide)⟩

set_option maxRecDepth 40000 in
/-- Witness for C3 at the seeded database: template 1 with a submission
supplying a truthy value for every required field. -/
theorem C3_witness :
    findTemplate seededDB 1
        = some ⟨1, some 1, "Образец договора аренды квартиры с мебелью и бытовой техникой",
                some "Полный договор аренды квартиры с мебелью и техникой для длительной аренды",
                some "Договор", some 149900, 0, 0⟩ ∧
    (∀ g ∈ (fieldsOf seededDB 1).filter (fun g => g.is_required),
        missingOrFalsy [("landlord_name", .str "Иванов И.И."),
          ("landlord_passport", .str "1234 567890"), ("tenant_name", .str "Петров П.П."),
          ("tenant_passport", .str "4321 098765"), ("address", .str "г. Москва"),
          ("apartment_area", .int 42), ("rooms_count", .int 2), ("rent_amount", .int 50000),
          ("start_date", .str "2024-01-01"), ("end_date", .str "2024-12-31")] g.field_key
          = false) ∧
    generate_document (fun _ => "\x7b\x7d") 9 1
        [("landlord_name", .str "Иванов И.И."),
         ("landlord_passport", .str "1234 567890"), ("tenant_name", .str "Петров П.П."),
         ("tenant_passport", .str "4321 098765"), ("address", .str "г. Москва"),
         ("apartment_area", .int 42), ("rooms_count", .int 2), ("rent_amount", .int 50000),
         ("start_date", .str "2024-01-01"), ("end_date", .str "2024-12-31")] seededDB
      = (.ok ⟨1, "Документ успешно создан",
              "Образец договора аренды квартиры с мебелью и бытовой техникой", 9⟩,
         { seededDB with
             filled_documents := [⟨1, 1, none, "\x7b\x7d", 9, "generated"⟩]
             nextDocumentId := 2 }) :=
  ⟨by decide, by decide,
   C3_generate_success (fun _ => "\x7b\x7d") 9 seededDB 1
     [("landlord_name", .str "Иванов И.И."),
      ("landlord_passport", .str "1234 567890"), ("tenant_name", .str "Петров П.П."),
      ("tenant_passport", .str "4321 098765"), ("address", .str "г. Москва"),
      ("apartment_area", .int 42), ("rooms_count", .int 2), ("rent_amount", .int 50000),
      ("start_date", .str "2024-01-01"), ("end_date", .str "2024-12-31")]
     ⟨1, some 1, "Образец договора аренды квартиры с мебелью и бытовой техникой",
      some "Полный договор аренды квартиры с мебелью и техникой для длительной аренды",
      some "Договор", some 149900, 0, 0⟩
     (by decide) (by decide)⟩

/-! ### C5 -/

theorem fieldLe_total (f g : TemplateFieldRow) (h : fieldLe f g = false) :
    fieldLe g f = true := by
  simp [fieldLe] at h ⊢
  omega

theorem fieldLe_trans (f g k : TemplateFieldRow) (h1 : fieldLe f g = true)
    (h2 : fieldLe g k = true) : fieldLe f k = true := by
  simp [fieldLe] at h1 h2 ⊢
  omega

/-- C5: for an existing template id, the fields endpoint returns the
template name plus that template's field rows ordered by order index
then id, each serialized with key, label, type, required flag,
placeholder defaulting to the empty string, min/max present exactly
when the column is non-NULL, format present exactly when truthy, and
options present when truthy, parsed from the stored JSON text with the
empty list as the default on parse failure. -/
theorem C5_fields (parse : String → Option (List String)) (tid : Nat)
    (s : DBState) (t : TemplateRow) (h : findTemplate s tid = some t) :
    ∃ rows, get_template_fields parse tid s = .ok ⟨tid, t.name, rows.map (serializeField parse)⟩
      ∧ List.Perm rows (fieldsOf s tid)
      ∧ rows.Sorted (fun a b => fieldLe a b = true)
      ∧ ∀ f ∈ rows,
          (serializeField parse f).key = f.field_key ∧
          (serializeField parse f).label = f.field_label ∧
          (serializeField parse f).type = f.field_type ∧
          (serializeField parse f).required = f.is_required ∧
          (serializeField parse f).placeholder = f.placeholder.getD "" ∧
          (serializeField parse f).min = f.min_value ∧
          (serializeField parse f).max = f.max_value ∧
          (serializeField parse f).format = (if truthyOptStr f.format then f.format else none) ∧
          (∀ o, f.options = some o → o ≠ "" →
            (serializeField parse f).options = some ((parse o).getD [])) ∧
          ((f.options = none ∨ f.options = some "") →
            (serializeField parse f).options = none) := by
  refine ⟨sortBy fieldLe (fieldsOf s tid), ?_, sortBy_perm _ _,
    sortBy_sorted _ fieldLe_total fieldLe_trans _, ?_⟩
  · simp [get_template_fields, h]
  · intro f _
    refine ⟨rfl, rfl, rfl, rfl, rfl, rfl, rfl, rfl, ?_, ?_⟩
    · intro o ho hne
      simp [serializeField, ho, hne]
    · rintro (ho | ho) <;> simp [serializeField, ho]

set_option maxRecDepth 40000 in
/-- Witness for C5 at the seeded database, template 1, with a parse
function that always fails. -/
theorem C5_witness :
    findTemplate seededDB 1
        = some ⟨1, some 1, "Образец договора аренды квартиры с мебелью и бытовой техникой",
                some "Полный договор аренды квартиры с мебелью и техникой для длительной аренды",
                some "Договор", some 149900, 0, 0⟩ ∧
    (∃ rows, get_template_fields (fun _ => none) 1 seededDB
        = .ok ⟨1, "Образец договора аренды квартиры с мебелью и бытовой техникой",
               rows.map (serializeField (fun _ => none))⟩
      ∧ List.Perm rows (fieldsOf seededDB 1)
      ∧ rows.Sorted (fun a b => fieldLe a b = true)
      ∧ ∀ f ∈ rows,
          (serializeField (fun _ => none) f).key = f.field_key ∧
          (serializeField (fun _ => none) f).label = f.field_label ∧
          (serializeField (fun _ => none) f).type = f.field_type ∧
          (serializeField (fun _ => none) f).required = f.is_required ∧
          (serializeField (fun _ => none) f).placeholder = f.placeholder.getD "" ∧
          (serializeField (fun _ => none) f).min = f.min_value ∧
          (serializeField (fun _ => none) f).max = f.max_value ∧
          (serializeField (fun _ => none) f).format
            = (if truthyOptStr f.format then f.format else none) ∧
          (∀ o, f.options = some o → o ≠ "" →
            (serializeField (fun _ => none) f).options = some (((fun _ => none) o).getD [])) ∧
          ((f.options = none ∨ f.options = some "") →
            (serializeField (fun _ => none) f).options = none)) :=
  ⟨by decide,
   C5_fields (fun _ => none) 1 seededDB
     ⟨1, some 1, "Образец договора аренды квартиры с мебелью и бытовой техникой",
      some "Полный договор аренды квартиры с мебелью и техникой для длительной аренды",
      some "Договор", some 149900, 0, 0⟩ (by decide)⟩

/-! ### C8 -/

theorem catLe_total (a b : CategoryRow) (h : catLe a b = false) : catLe b a = true := by
  simp [catLe] at h ⊢
  exact le_of_lt h

theorem catLe_trans (a b c : CategoryRow) (h1 : catLe a b = true)
    (h2 : catLe b c = true) : catLe a c = true := by
  simp [catLe] at h1 h2 ⊢
  exact le_trans h1 h2

/-- C8: the category listing returns every category — one entry per
`categories` row — ordered by name, and each entry's `template_count`
equals the number of `templates` rows whose `category_id` equals that
category's id in the current state. -/
theorem C8_categories (s : DBState) :
    ∃ l, get_categories s = .ok l
      ∧ List.Perm l (s.categories.map (fun c =>
          (⟨c.id, c.name, c.description,
            (s.templates.filter (fun t => t.category_id == some c.id)).length⟩ : CategoryOut)))
      ∧ l.Sorted (fun a b => a.name ≤ b.name)
      ∧ ∀ e ∈ l, e.template_count
          = (s.templates.filter (fun t => t.category_id == some e.id)).length := by
  refine ⟨_, rfl, ?_, ?_, ?_⟩
  · exact (sortBy_perm catLe s.categories).map _
  · refine List.Pairwise.map _ ?_ (sortBy_sorted catLe catLe_total catLe_trans s.categories)
    intro a b hab
    simpa [catLe] using hab
  · intro e he
    obtain ⟨c, _, rfl⟩ := List.mem_map.1 he
    rfl

/-- Witness for C8 at the fresh database: the listing of no categories
is the empty list. -/
theorem C8_witness : get_categories emptyDB = .ok ([] : List CategoryOut) := by
  obtain ⟨l, h1, h2, _, _⟩ := C8_categories emptyDB
  rw [h1, h2.eq_nil]

/-! ### C9 -/

theorem docLe_total (a b : FilledDocumentRow × TemplateRow) (h : docLe a b = false) :
    docLe b a = true := by
  simp [docLe] at h ⊢
  omega

theorem docLe_trans (a b c : FilledDocumentRow × TemplateRow) (h1 : docLe a b = true)
    (h2 : docLe b c = true) : docLe a c = true := by
  simp [docLe] at h1 h2 ⊢
  omega

/-- C9: the document listing returns at most 100 entries — exactly
`min 100 k` where `k` counts the filled documents whose template still
exists — ordered by creation time descending; every entry stems from a
filled document joined with its existing template (documents whose
template row is gone are silently excluded by the inner join), carrying
id, template id, template name, creation timestamp and status; and
when at most 100 documents survive the join, every one of them
appears. -/
theorem C9_documents (s : DBState) :
    ∃ kept rest, get_documents s
        = .ok (kept.map (fun p =>
            (⟨p.1.id, p.1.template_id, p.2.name, p.1.created_at, p.1.status⟩ : DocumentOut)))
      ∧ List.Perm (joinDocs s) (kept ++ rest)
      ∧ kept.length = min 100 (joinDocs s).length
      ∧ kept.Sorted (fun a b => b.1.created_at ≤ a.1.created_at)
      ∧ (∀ a ∈ kept, ∀ b ∈ rest, b.1.created_at ≤ a.1.created_at)
      ∧ (∀ p ∈ kept, p.1 ∈ s.filled_documents
          ∧ findTemplate s p.1.template_id = some p.2)
      ∧ ((joinDocs s).length ≤ 100 → ∀ d ∈ s.filled_documents, ∀ t,
            findTemplate s d.template_id = some t → (d, t) ∈ kept) := by
  have hsorted := sortBy_sorted docLe docLe_total docLe_trans (joinDocs s)
  refine ⟨(sortBy docLe (joinDocs s)).take 100, (sortBy docLe (joinDocs s)).drop 100,
    rfl, ?_, ?_, ?_, ?_, ?_, ?_⟩
  · rw [List.take_append_drop]
    exact (sortBy_perm docLe (joinDocs s)).symm
  · simp [List.length_take, (sortBy_perm docLe (joinDocs s)).length_eq]
  · refine List.Pairwise.imp ?_ hsorted.take
    intro a b hab
    simpa [docLe] using hab
  · intro a ha b hb
    have := hsorted.rel_of_mem_take_of_mem_drop ha hb
    simpa [docLe] using this
  · intro p hp
    have hp' : p ∈ joinDocs s :=
      (sortBy_perm docLe (joinDocs s)).mem_iff.1 (List.mem_of_mem_take hp)
    obtain ⟨d, hd, hmap⟩ := List.mem_filterMap.1 hp'
    obtain ⟨t, ht, hpt⟩ := Option.map_eq_some'.1 hmap
    rw [← hpt]
    exact ⟨hd, ht⟩
  · intro hlen d hd t ht
    have hmem : (d, t) ∈ joinDocs s :=
      List.mem_filterMap.2 ⟨d, hd, by rw [ht]; rfl⟩
    have hmem' : (d, t) ∈ sortBy docLe (joinDocs s) :=
      (sortBy_perm docLe (joinDocs s)).mem_iff.2 hmem
    have hlen' : (sortBy docLe (joinDocs s)).length ≤ 100 := by
      rw [(sortBy_perm docLe (joinDocs s)).length_eq]
      exact hlen
    rw [List.take_of_length_le hlen']
    exact hmem'

/-- Witness for C9 at the fresh database: no documents, empty
listing. -/
theorem C9_witness : get_documents emptyDB = .ok ([] : List DocumentOut) := by
  obtain ⟨kept, rest, h1, h2, h3, _, _, _, _⟩ := C9_documents emptyDB
  have h0 : kept.length = 0 := by simpa [joinDocs, emptyDB] using h3
  rw [List.length_eq_zero.1 h0] at h1
  simpa using h1

/-! ### C4 -/

theorem templLe_total (t u : TemplateRow) (h : templLe t u = false) : templLe u t = true := by
  simp [templLe] at h ⊢
  obtain ⟨h1, h2⟩ := h
  rcases eq_or_lt_of_le h1 with heq | hlt
  · right
    exact ⟨heq.symm, le_of_lt (h2 heq)⟩
  · left
    exact hlt

theorem templLe_trans (a b c : TemplateRow) (h1 : templLe a b = true)
    (h2 : templLe b c = true) : templLe a c = true := by
  simp [templLe] at h1 h2 ⊢
  rcases h1 with h1 | ⟨e1, n1⟩ <;> rcases h2 with h2 | ⟨e2, n2⟩
  · left
    exact lt_trans h2 h1
  · left
    exact e2 ▸ h1
  · left
    rw [e1]
    exact h2
  · right
    exact ⟨e1.trans e2, le_trans n1 n2⟩

/-- Refinement-side definition, following the spec's words only: folds
case for the alphabets the catalog uses (ASCII Latin and Cyrillic,
including `Ё`), for the claim's notion of a case-insensitive substring
match. -/
def specFoldChar (c : Char) : Char :=
  if 'A' ≤ c ∧ c ≤ 'Z' then Char.ofNat (c.toNat + 32)
  else if 'А' ≤ c ∧ c ≤ 'Я' then Char.ofNat (c.toNat + 32)
  else if c = 'Ё' then 'ё'
  else c

/-- Does `needle` occur at the start of `hay`? -/
def startsWithSeq : List Char → List Char → Bool
  | [], _ => true
  | _ :: _, [] => false
  | c :: cs, d :: ds => c == d && startsWithSeq cs ds

/-- Does `needle` occur contiguously anywhere in `hay`? -/
def containsSeq (needle : List Char) : List Char → Bool
  | [] => startsWithSeq needle []
  | d :: hs => startsWithSeq needle (d :: hs) || containsSeq needle hs

/-- Refinement-side definition, following the spec's words only: the
search term occurs in the text as a case-insensitive substring. -/
def specContainsCI (term text : String) : Bool :=
  containsSeq (term.data.map specFoldChar) (text.data.map specFoldChar)

/-- A one-template catalog state used by the C4 counterexample. -/
def likeDB : DBState :=
  ⟨[], [⟨1, none, "Договор аренды", some "Описание", some "Договор", some 10, 0, 0⟩],
   [], [], 1, 2, 1, 1⟩

/-- C4 counterexample: the template named `"Договор аренды"` contains
the search term `"договор"` as a case-insensitive substring, yet the
listing filtered by that term returns no templates: SQLite's `LIKE` is
case-insensitive for ASCII only, and the Cyrillic initial `Д` differs
from `д` by case. -/
theorem C4_counterexample :
    specContainsCI "договор" "Договор аренды" = true ∧
    (∃ t, t ∈ likeDB.templates ∧ t.name = "Договор аренды") ∧
    get_all_templates likeDB none none "договор" = .ok [] := by
  refine ⟨by decide, ⟨_, List.mem_singleton.2 rfl, rfl⟩, by decide⟩

/-- C4 (amended): the three optional filters of the template listing
combine with logical AND — the category filter when `category_id` is
truthy, the equality filter on `doc_type` when truthy (so a `doc_type`
outside the enumerated set matches no templates, stored values being
constrained by the `CHECK`), and the search filter when the term is
non-empty, keeping exactly the templates whose name or description
matches the SQLite `LIKE` pattern `%term%` — which is case-insensitive
for ASCII letters only; non-ASCII (e.g. Cyrillic) characters compare
case-sensitively.  The result is ordered by popularity descending,
ties broken by name ascending. -/
theorem C4_filters (s : DBState) (cid : Option Int) (dt : Option String) (search : String) :
    ∃ l, get_all_templates s cid dt search = .ok l
      ∧ List.Perm l ((s.templates.filter (fun t =>
            (!truthyOptInt cid || t.category_id.map (fun n => (n : Int)) == cid) &&
            ((!truthyOptStr dt || t.doc_type == dt) &&
             (search == "" || (likeContains search t.name ||
                (match t.description with
                  | some d => likeContains search d
                  | none => false)))))).map (fun t =>
            (⟨t.id, t.name, t.description, t.doc_type, catNameOf s t.category_id,
              t.word_count, t.popularity⟩ : TemplateSummary)))
      ∧ l.Sorted (fun a b => b.popularity < a.popularity ∨
            (a.popularity = b.popularity ∧ a.name ≤ b.name))
      ∧ ((∀ t ∈ s.templates, docTypeCheckOk t.doc_type = true) →
          ∀ d, dt = some d → d ∉ docTypeEnum → d ≠ "" → l = []) := by
  refine ⟨_, rfl, ?_, ?_, ?_⟩
  · exact (sortBy_perm templLe (s.templates.filter (keepTemplate cid dt search))).map _
  · refine List.Pairwise.map _ ?_
      (sortBy_sorted templLe templLe_total templLe_trans
        (s.templates.filter (keepTemplate cid dt search)))
    intro a b hab
    simpa [templLe] using hab
  · intro hck d hdt hmem hne
    have hfil : s.templates.filter (keepTemplate cid dt search) = [] := by
      rw [List.filter_eq_nil_iff]
      intro t ht hkeep
      unfold keepTemplate at hkeep
      rw [Bool.and_eq_true, Bool.and_eq_true] at hkeep
      obtain ⟨-, hB, -⟩ := hkeep
      subst hdt
      simp [truthyOptStr, hne] at hB
      have hok := hck t ht
      rw [hB] at hok
      simp [docTypeCheckOk] at hok
      exact hmem hok
    rw [hfil]
    rfl

set_option maxRecDepth 40000 in
/-- Witness for C4 at the seeded database with the non-enumerated
document type `"Чек"`: no templates match. -/
theorem C4_witness : get_all_templates seededDB none (some "Чек") "" = .ok [] := by
  obtain ⟨l, h1, _, _, h4⟩ := C4_filters seededDB none (some "Чек") ""
  rw [h1, h4 (by decide) "Чек" rfl (by decide) (by decide)]

/-! ### C6 -/

theorem categoriesLoop_spec :
    ∀ (data : List (String × String)) (s : DBState) (acc : List (String × Nat)),
      (categoriesLoop data s acc).1.categories.length = s.categories.length + data.length
      ∧ (categoriesLoop data s acc).1.templates = s.templates
      ∧ (categoriesLoop data s acc).1.template_fields = s.template_fields
      ∧ (categoriesLoop data s acc).1.filled_documents = s.filled_documents
      ∧ (categoriesLoop data s acc).2.map Prod.fst = acc.map Prod.fst ++ data.map Prod.fst := by
  intro data
  induction data with
  | nil =>
    intro s acc
    simp [categoriesLoop]
  | cons p rest ih =>
    obtain ⟨n, d⟩ := p
    intro s acc
    have hstep : categoriesLoop ((n, d) :: rest) s acc
        = categoriesLoop rest (insertCategory s n d).1
            (acc ++ [(n, (insertCategory s n d).2)]) := rfl
    obtain ⟨h1, h2, h3, h4, h5⟩ :=
      ih (insertCategory s n d).1 (acc ++ [(n, (insertCategory s n d).2)])
    rw [hstep]
    refine ⟨?_, h2, h3, h4, ?_⟩
    · rw [h1]
      show (s.categories ++ [_]).length + rest.length = _
      simp
      omega
    · rw [h5]
      simp

/-- Did the seed's template-loop body insert this entry's template row?
True exactly when the category name resolves and the `doc_type` `CHECK`
passes. -/
def seedPass (catIds : List (String × Nat)) (e : SeedTemplate) : Bool :=
  (List.lookup e.category catIds).isSome && docTypeCheckOk (some e.type)

/-- Does the first field definition of this entry pass the field-insert
`CHECK`, guaranteeing at least one field row for the template? -/
def headFieldOk (e : SeedTemplate) : Bool :=
  match e.fields with
  | [] => false
  | f :: _ => decide (f.type ∈ fieldTypeEnum)

theorem insertFieldsLoop_shape (tid : Nat) :
    ∀ (fs : List SeedField) (i : Nat) (s : DBState),
      (insertFieldsLoop tid fs i s).templates = s.templates
      ∧ (insertFieldsLoop tid fs i s).categories = s.categories
      ∧ (insertFieldsLoop tid fs i s).filled_documents = s.filled_documents
      ∧ (∀ g ∈ s.template_fields, g ∈ (insertFieldsLoop tid fs i s).template_fields) := by
  intro fs
  induction fs with
  | nil =>
    intro i s
    exact ⟨rfl, rfl, rfl, fun g hg => hg⟩
  | cons f rest ih =>
    intro i s
    by_cases h : f.type ∈ fieldTypeEnum
    · have hins : insertField s tid f i
          = some { s with
                     template_fields := s.template_fields ++
                       [⟨s.nextFieldId, tid, f.key, f.label, f.type, f.required, f.min, f.max,
                         none, f.placeholder, f.options.map strListJson, (i : Int)⟩]
                     nextFieldId := s.nextFieldId + 1 } := by
        simp [insertField, h]
      obtain ⟨h1, h2, h3, h4⟩ := ih (i + 1)
        { s with
            template_fields := s.template_fields ++
              [⟨s.nextFieldId, tid, f.key, f.label, f.type, f.required, f.min, f.max,
                none, f.placeholder, f.options.map strListJson, (i : Int)⟩]
            nextFieldId := s.nextFieldId + 1 }
      simp only [insertFieldsLoop, hins]
      refine ⟨h1, h2, h3, ?_⟩
      intro g hg
      exact h4 g (List.mem_append_left _ hg)
    · have hins : insertField s tid f i = none := by
        simp [insertField, h]
      simp [insertFieldsLoop, hins]

theorem insertFieldsLoop_head (tid : Nat) (f : SeedField) (rest : List SeedField)
    (i : Nat) (s : DBState) (h : f.type ∈ fieldTypeEnum) :
    ∃ g ∈ (insertFieldsLoop tid (f :: rest) i s).template_fields, g.template_id = tid := by
  have hins : insertField s tid f i
      = some { s with
                 template_fields := s.template_fields ++
                   [⟨s.nextFieldId, tid, f.key, f.label, f.type, f.required, f.min, f.max,
                     none, f.placeholder, f.options.map strListJson, (i : Int)⟩]
                 nextFieldId := s.nextFieldId + 1 } := by
    simp [insertField, h]
  simp only [insertFieldsLoop, hins]
  refine ⟨⟨s.nextFieldId, tid, f.key, f.label, f.type, f.required, f.min, f.max,
           none, f.placeholder, f.options.map strListJson, (i : Int)⟩, ?_, rfl⟩
  exact (insertFieldsLoop_shape tid rest (i + 1) _).2.2.2 _
    (List.mem_append_right _ (List.mem_singleton.2 rfl))

theorem tryInsert_isSome (catIds : List (String × Nat)) (now : Nat) (e : SeedTemplate)
    (s : DBState) :
    (tryInsertSeedTemplate catIds now e s).isSome = seedPass catIds e := by
  unfold tryInsertSeedTemplate seedPass insertTemplate
  cases List.lookup e.category catIds with
  | none => rfl
  | some cid =>
    cases hd : docTypeCheckOk (some e.type) <;> simp [hd]

theorem tryInsert_some (catIds : List (String × Nat)) (now : Nat) (e : SeedTemplate)
    (s s' : DBState) (h : tryInsertSeedTemplate catIds now e s = some s') :
    (∃ cid, s'.templates = s.templates ++
        [⟨s.nextTemplateId, some cid, e.name, some e.description, some e.type,
          some e.word_count, 0, now⟩])
    ∧ s'.categories = s.categories
    ∧ s'.filled_documents = s.filled_documents
    ∧ (∀ g ∈ s.template_fields, g ∈ s'.template_fields)
    ∧ (headFieldOk e = true → ∃ g ∈ s'.template_fields, g.template_id = s.nextTemplateId) := by
  unfold tryInsertSeedTemplate insertTemplate at h
  cases hl : List.lookup e.category catIds with
  | none =>
    rw [hl] at h
    exact absurd h (by simp)
  | some cid =>
    by_cases hd : docTypeCheckOk (some e.type) = true
    · have hs' : s' = insertFieldsLoop s.nextTemplateId e.fields 0
          { s with
              templates := s.templates ++
                [⟨s.nextTemplateId, some cid, e.name, some e.description, some e.type,
                  some e.word_count, 0, now⟩]
              nextTemplateId := s.nextTemplateId + 1 } := by
        simp only [hl, hd, if_true, Option.some.injEq] at h
        exact h.symm
      obtain ⟨g1, g2, g3, g4⟩ := insertFieldsLoop_shape s.nextTemplateId e.fields 0
        { s with
            templates := s.templates ++
              [⟨s.nextTemplateId, some cid, e.name, some e.description, some e.type,
                some e.word_count, 0, now⟩]
            nextTemplateId := s.nextTemplateId + 1 }
      refine ⟨⟨cid, ?_⟩, ?_, ?_, ?_, ?_⟩
      · rw [hs', g1]
      · rw [hs', g2]
      · rw [hs', g3]
      · intro g hg
        rw [hs']
        exact g4 g hg
      · intro hhead
        cases hfs : e.fields with
        | nil =>
          simp [headFieldOk, hfs] at hhead
        | cons f rest =>
          have hf : f.type ∈ fieldTypeEnum := by
            have := hhead
            simp [headFieldOk, hfs] at this
            exact this
          rw [hs', hfs]
          exact insertFieldsLoop_head s.nextTemplateId f rest 0 _ hf
    · simp [hl, hd] at h

theorem templatesLoop_spec (now : Nat) :
    ∀ (data : List SeedTemplate) (catIds : List (String × Nat)) (s : DBState) (n : Nat),
      (templatesLoop catIds now data s n).1.templates.length
          = s.templates.length + data.countP (seedPass catIds)
      ∧ (templatesLoop catIds now data s n).2 = n + data.countP (seedPass catIds)
      ∧ (templatesLoop catIds now data s n).1.categories = s.categories
      ∧ (templatesLoop catIds now data s n).1.filled_documents = s.filled_documents := by
  intro data
  induction data with
  | nil =>
    intro catIds s n
    simp [templatesLoop]
  | cons e rest ih =>
    intro catIds s n
    cases htry : tryInsertSeedTemplate catIds now e s with
    | none =>
      have hpass : seedPass catIds e = false := by
        rw [← tryInsert_isSome catIds now e s, htry]
        rfl
      obtain ⟨h1, h2, h3, h4⟩ := ih catIds s n
      simp only [templatesLoop, htry]
      refine ⟨?_, ?_, h3, h4⟩
      · rw [h1, List.countP_cons, hpass]
        simp
      · rw [h2, List.countP_cons, hpass]
        simp
    | some s' =>
      have hpass : seedPass catIds e = true := by
        rw [← tryInsert_isSome catIds now e s, htry]
        rfl
      obtain ⟨⟨cid, htpl⟩, hcat, hfill, -, -⟩ := tryInsert_some catIds now e s s' htry
      obtain ⟨h1, h2, h3, h4⟩ := ih catIds s' (n + 1)
      simp only [templatesLoop, htry]
      refine ⟨?_, ?_, ?_, ?_⟩
      · rw [h1, htpl, List.countP_cons, hpass]
        simp
        omega
      · rw [h2, List.countP_cons, hpass]
        simp
        omega
      · rw [h3, hcat]
      · rw [h4, hfill]

theorem templatesLoop_inv (now : Nat) :
    ∀ (data : List SeedTemplate) (catIds : List (String × Nat)) (s : DBState) (n : Nat),
      (∀ e ∈ data, headFieldOk e = true) →
      (∀ t ∈ s.templates, ∃ g ∈ s.template_fields, g.template_id = t.id) →
      ∀ t ∈ (templatesLoop catIds now data s n).1.templates,
        ∃ g ∈ (templatesLoop catIds now data s n).1.template_fields, g.template_id = t.id := by
  intro data
  induction data with
  | nil =>
    intro catIds s n _ hinv
    exact hinv
  | cons e rest ih =>
    intro catIds s n hdata hinv
    cases htry : tryInsertSeedTemplate catIds now e s with
    | none =>
      simp only [templatesLoop, htry]
      exact ih catIds s n (fun e' he' => hdata e' (List.mem_cons_of_mem e he')) hinv
    | some s' =>
      simp only [templatesLoop, htry]
      refine ih catIds s' (n + 1) (fun e' he' => hdata e' (List.mem_cons_of_mem e he')) ?_
      obtain ⟨⟨cid, htpl⟩, -, -, hmono, hhead⟩ := tryInsert_some catIds now e s s' htry
      intro t ht
      rw [htpl] at ht
      rcases List.mem_append.1 ht with hold | hnew
      · obtain ⟨g, hg, hgid⟩ := hinv t hold
        exact ⟨g, hmono g hg, hgid⟩
      · obtain ⟨g, hg, hgid⟩ := hhead (hdata e (List.mem_cons_self e rest))
        refine ⟨g, hg, ?_⟩
        rw [hgid, List.mem_singleton.1 hnew]

/-- The wipe of the three catalog tables at the start of the seed
handler. -/
def seedWiped (s : DBState) : DBState :=
  { s with template_fields := [], templates := [], categories := [] }

/-- The `category_ids` mapping built by the seed's category loop. -/
def seedCatIds (s : DBState) : List (String × Nat) :=
  (categoriesLoop seedCategories (seedWiped s) []).2

/-- The state after the seed's category loop. -/
def seedMidState (s : DBState) : DBState :=
  (categoriesLoop seedCategories (seedWiped s) []).1

theorem seed_database_eq (now : Nat) (s : DBState) :
    seed_database now s
      = (.ok ⟨"База данных успешно заполнена! Добавлено "
            ++ toString (templatesLoop (seedCatIds s) now seedTemplates (seedMidState s) 0).2
            ++ " шаблонов.",
          (templatesLoop (seedCatIds s) now seedTemplates (seedMidState s) 0).2,
          (seedTemplates.map (fun t => t.name)).take
            (templatesLoop (seedCatIds s) now seedTemplates (seedMidState s) 0).2⟩,
         (templatesLoop (seedCatIds s) now seedTemplates (seedMidState s) 0).1) := rfl

theorem seedPass_all (s : DBState) :
    ∀ e ∈ seedTemplates, seedPass (seedCatIds s) e = true := by
  have hkeys : (seedCatIds s).map Prod.fst = seedCategories.map Prod.fst := by
    simpa using (categoriesLoop_spec seedCategories (seedWiped s) []).2.2.2.2
  have hall : ∀ e ∈ seedTemplates,
      e.category ∈ seedCategories.map Prod.fst ∧ docTypeCheckOk (some e.type) = true := by
    decide
  intro e he
  unfold seedPass
  rw [Bool.and_eq_true]
  refine ⟨?_, (hall e he).2⟩
  have hmemk : e.category ∈ (seedCatIds s).map Prod.fst := by
    rw [hkeys]
    exact (hall e he).1
  obtain ⟨p, hp, hpe⟩ := List.mem_map.1 hmemk
  have hex : ∃ p ∈ seedCatIds s, e.category = p.1 := ⟨p, hp, hpe.symm⟩
  simpa using hex

theorem seedCount_ten (s : DBState) :
    seedTemplates.countP (seedPass (seedCatIds s)) = 10 :=
  (List.countP_eq_length.2 (seedPass_all s)).trans rfl

/-- Counts of the two catalog tables after a seed call, from any prior
state: exactly 8 categories and 10 templates. -/
theorem seed_counts (now : Nat) (s : DBState) :
    (seed_database now s).2.categories.length = 8
    ∧ (seed_database now s).2.templates.length = 10 := by
  obtain ⟨hc1, hc2, hc3, hc4, hc5⟩ := categoriesLoop_spec seedCategories (seedWiped s) []
  obtain ⟨ht1, ht2, ht3, ht4⟩ :=
    templatesLoop_spec now seedTemplates (seedCatIds s) (seedMidState s) 0
  rw [seed_database_eq]
  constructor
  · show (templatesLoop (seedCatIds s) now seedTemplates (seedMidState s) 0).1.categories.length = 8
    rw [ht3]
    show (categoriesLoop seedCategories (seedWiped s) []).1.categories.length = 8
    simpa using hc1
  · show (templatesLoop (seedCatIds s) now seedTemplates (seedMidState s) 0).1.templates.length = 10
    rw [ht1]
    have hmid : (seedMidState s).templates = [] := hc2
    rw [hmid, seedCount_ten s]
    rfl

/-- A template entry whose `doc_type` violates the `CHECK` constraint:
its insert fails, which the seed loop must skip, not propagate. -/
def badSeedTemplate : SeedTemplate :=
  ⟨"Сломанный шаблон", "Договоры", "Чек", 1, "x", []⟩

/-- C6: from any prior catalog state, seeding wipes the catalog tables
and leaves exactly 8 categories and exactly 10 templates, each template
having at least one associated field row; the response reports 10
templates inserted (and lists them); re-seeding from the seeded state
again leaves exactly 8 categories and 10 templates (no duplication);
and a template entry whose insert fails is skipped without aborting the
loop — the remaining templates are processed exactly as if the failing
entry were absent. -/
theorem C6_seed (now : Nat) (s : DBState) :
    (seed_database now s).2.categories.length = 8
    ∧ (seed_database now s).2.templates.length = 10
    ∧ (∀ t ∈ (seed_database now s).2.templates,
        ∃ g ∈ (seed_database now s).2.template_fields, g.template_id = t.id)
    ∧ (seed_database now s).1
        = .ok ⟨"База данных успешно заполнена! Добавлено 10 шаблонов.", 10,
               seedTemplates.map (fun t => t.name)⟩
    ∧ (∀ now', (seed_database now' (seed_database now s).2).2.categories.length = 8
         ∧ (seed_database now' (seed_database now s).2).2.templates.length = 10)
    ∧ (∀ catIds (s' : DBState) (n : Nat),
        templatesLoop catIds now (badSeedTemplate :: seedTemplates) s' n
          = templatesLoop catIds now seedTemplates s' n) := by
  refine ⟨(seed_counts now s).1, (seed_counts now s).2, ?_, ?_,
    fun now' => seed_counts now' _, ?_⟩
  · rw [seed_database_eq]
    show ∀ t ∈ (templatesLoop (seedCatIds s) now seedTemplates (seedMidState s) 0).1.templates,
      ∃ g ∈ (templatesLoop (seedCatIds s) now seedTemplates
        (seedMidState s) 0).1.template_fields, g.template_id = t.id
    apply templatesLoop_inv
    · exact fun e _ => by
        revert e
        decide
    · intro t ht
      have hmid : (seedMidState s).templates = [] :=
        (categoriesLoop_spec seedCategories (seedWiped s) []).2.1
      rw [hmid] at ht
      exact absurd ht (List.not_mem_nil t)
  · have hadded : (templatesLoop (seedCatIds s) now seedTemplates (seedMidState s) 0).2 = 10 := by
      rw [(templatesLoop_spec now seedTemplates (seedCatIds s) (seedMidState s) 0).2.1,
        seedCount_ten s]
    rw [seed_database_eq]
    show ApiResult.ok _ = _
    rw [hadded]
    rfl
  · intro catIds s' n
    have hbad : tryInsertSeedTemplate catIds now badSeedTemplate s' = none := by
      unfold tryInsertSeedTemplate
      cases hl : List.lookup badSeedTemplate.category catIds with
      | none => rfl
      | some cid =>
        simp [insertTemplate, docTypeCheckOk, badSeedTemplate,
          (by decide : ¬ ("Чек" ∈ docTypeEnum))]
    simp only [templatesLoop, hbad]

set_option maxRecDepth 40000 in
/-- Witness for C6: in the freshly seeded database, template 1 (the
rental contract) has at least one associated field row. -/
theorem C6_witness : ∃ g ∈ seededDB.template_fields, g.template_id = 1 := by
  have h := (C6_seed 0 emptyDB).2.2.1
  exact h ⟨1, some 1, "Образец договора аренды квартиры с мебелью и бытовой техникой",
           some "Полный договор аренды квартиры с мебелью и техникой для длительной аренды",
           some "Договор", some 149900, 0, 0⟩ (by decide)

end DocGen
